import Mathlib

/-!
Shallow embedding of the linkedin-jobs-api sources.

Two pipelines exist in the repository:
* `Simple` embeds src/index.js (fetchLinkedInJobs, its parseJobList, its JobCache);
* `Batch` embeds src/unnamed/part_000 (Query, Query.prototype.getJobs, its async
  parseJobList, fetchJobDescription, its JobCache).

External collaborators (cheerio, axios, the network) are abstracted as oracles:
a listing item is abstracted by the texts and attributes the fixed selectors
yield on it, a page fetch by the outcome the dispatcher reports for the n-th
request, and wall-clock time by an explicit `now : Nat` in milliseconds.
-/

/-- JS regex whitespace class, restricted to the ASCII range relevant here
(space, tab, newline, carriage return, vertical tab, form feed). -/
def isJsSpace (c : Char) : Bool :=
  c == ' ' || c == '\t' || c == '\n' || c == '\r' || c.toNat == 11 || c.toNat == 12

/-- JS String.prototype.trim on a character list. -/
def trimChars (l : List Char) : List Char :=
  ((l.dropWhile isJsSpace).reverse.dropWhile isJsSpace).reverse

/-- JS String.prototype.trim. -/
def trimJs (s : String) : String := ⟨trimChars s.data⟩

/-- Worker for JS .replace of all whitespace runs: the boolean records whether
the previous character belonged to a run already replaced. -/
def collapseGo (rep : List Char) : Bool → List Char → List Char
  | _, [] => []
  | inRun, c :: cs =>
    if isJsSpace c then (if inRun then [] else rep) ++ collapseGo rep true cs
    else c :: collapseGo rep false cs

/-- JS s.replace of every maximal whitespace run by `rep`. -/
def replaceWsRuns (rep : String) (s : String) : String := ⟨collapseGo rep.data false s.data⟩

/-- One hexadecimal digit, upper case. -/
def hexDigit (n : Nat) : Char := if n < 10 then Char.ofNat (48 + n) else Char.ofNat (55 + n)

/-- Percent-encoding of one byte. -/
def pctByte (b : Nat) : List Char := ['%', hexDigit (b / 16), hexDigit (b % 16)]

/-- UTF-8 bytes of a code point. -/
def utf8Bytes (n : Nat) : List Nat :=
  if n < 128 then [n]
  else if n < 2048 then [192 + n / 64, 128 + n % 64]
  else if n < 65536 then [224 + n / 4096, 128 + (n / 64) % 64, 128 + n % 64]
  else [240 + n / 262144, 128 + (n / 4096) % 64, 128 + (n / 64) % 64, 128 + n % 64]

/-- Characters encodeURIComponent leaves as-is: alphanumerics and - _ . ! ~ * ( )
and the apostrophe (code 39). -/
def isUriUnreserved (c : Char) : Bool :=
  (65 ≤ c.toNat && c.toNat ≤ 90) || (97 ≤ c.toNat && c.toNat ≤ 122) ||
  (48 ≤ c.toNat && c.toNat ≤ 57) ||
  c == '-' || c == '_' || c == '.' || c == '!' || c == '~' || c == '*' ||
  c.toNat == 39 || c == '(' || c == ')'

/-- JS encodeURIComponent. -/
def encodeURIComponent (s : String) : String :=
  ⟨s.data.foldr
    (fun c acc =>
      (if isUriUnreserved c then [c]
       else (utf8Bytes c.toNat).foldr (fun b acc2 => pctByte b ++ acc2) []) ++ acc) []⟩

/-- Characters the URLSearchParams serializer leaves as-is:
alphanumerics and * - . _ (the application/x-www-form-urlencoded safe set). -/
def isFormSafe (c : Char) : Bool :=
  (65 ≤ c.toNat && c.toNat ≤ 90) || (97 ≤ c.toNat && c.toNat ≤ 122) ||
  (48 ≤ c.toNat && c.toNat ≤ 57) ||
  c == '*' || c == '-' || c == '.' || c == '_'

/-- URLSearchParams serialization of one character: safe set kept, space
becomes a plus sign, everything else percent-encoded per UTF-8 byte. -/
def formEncodeChar (c : Char) : List Char :=
  if isFormSafe c then [c]
  else if c == ' ' then ['+']
  else (utf8Bytes c.toNat).foldr (fun b acc => pctByte b ++ acc) []

/-- URLSearchParams serialization of one string. -/
def formUrlEncode (s : String) : String :=
  ⟨s.data.foldr (fun c acc => formEncodeChar c ++ acc) []⟩

/-- ASCII model of JS String.prototype.toLowerCase, as a plain map over the
characters (Char.toLower lowers exactly the basic latin letters). -/
def toLowerStr (s : String) : String := ⟨s.data.map Char.toLower⟩

/-- What the fixed cheerio selectors yield on one candidate `li` element:
the text of each targeted class, and the raw attributes (absent when the
selector matches nothing or the attribute is missing). -/
structure RawItem where
  titleText : String
  subtitleText : String
  locationText : String
  datetimeAttr : Option String
  salaryText : String
  hrefAttr : Option String
  logoAttr : Option String
  agoText : String
  snippetText : String
deriving DecidableEq, Repr

namespace Simple

/-- Job record built by parseJobList in src/index.js (all fields strings). -/
structure JobRecord where
  position : String
  company : String
  location : String
  date : String
  salary : String
  jobUrl : String
  companyLogo : String
  agoTime : String
  description : String
deriving DecidableEq, Repr

/-- One listing item, as parseJobList in src/index.js maps it: every field is
extracted independently with falsy fallbacks; no item is discarded. -/
def parseItem (it : RawItem) : JobRecord :=
  { position := trimJs it.titleText
    company := trimJs it.subtitleText
    location := trimJs it.locationText
    date := it.datetimeAttr.getD ""
    salary :=
      (let s := replaceWsRuns " " (trimJs it.salaryText)
       if s = "" then "Not specified" else s)
    jobUrl := it.hrefAttr.getD ""
    companyLogo := it.logoAttr.getD ""
    agoTime := trimJs it.agoText
    description := trimJs it.snippetText }

/-- parseJobList in src/index.js: map over the `li` items; the per-item catch
returns null and filter(Boolean) drops it, but the pure field extraction
itself never throws, so every item yields a record. -/
def parseJobList (items : List RawItem) : List JobRecord :=
  items.map parseItem

end Simple

namespace Batch

/-- Job record built by the async parseJobList in src/unnamed/part_000
(`date` is the raw datetime attribute, possibly absent). -/
structure JobRecord where
  position : String
  company : String
  location : String
  date : Option String
  salary : String
  jobUrl : String
  companyLogo : String
  agoTime : String
  description : String
deriving DecidableEq, Repr

/-- A job detail page, abstracted by the texts the two description selectors
yield on it (primary: .description__text .show-more-less-html, secondary:
.show-more-less-html__markup). -/
structure DetailPage where
  primaryText : String
  secondaryText : String
deriving DecidableEq, Repr

/-- fetchJobDescription in src/unnamed/part_000: the argument is the outcome
of the axios fetch plus cheerio load (error covers any fetch or parse
failure); on success the primary selector text is tried, then the secondary,
then the sentinel. -/
def fetchJobDescription (outcome : Except Unit DetailPage) : String :=
  match outcome with
  | .error _ => "Description not available"
  | .ok p =>
    let d := trimJs p.primaryText
    let d2 := if d = "" then trimJs p.secondaryText else d
    if d2 = "" then "Description not available" else d2

/-- One listing item, as the async parseJobList in src/unnamed/part_000 maps
it; `descOf` is the (total) result of awaiting fetchJobDescription on the
href. Returns none exactly when the emptiness guard fires. -/
def parseItem (descOf : String → String) (it : RawItem) : Option JobRecord :=
  let position := trimJs it.titleText
  let company := trimJs it.subtitleText
  let location := trimJs it.locationText
  let date := it.datetimeAttr
  let salary := replaceWsRuns " " (trimJs it.salaryText)
  let jobUrl := it.hrefAttr
  let companyLogo := it.logoAttr
  let agoTime := trimJs it.agoText
  let description :=
    match jobUrl with
    | some u => if u = "" then "" else descOf u
    | none => ""
  if position = "" ∨ company = "" then none
  else some
    { position := position
      company := company
      location := location
      date := date
      salary := if salary = "" then "Not specified" else salary
      jobUrl := jobUrl.getD ""
      companyLogo := companyLogo.getD ""
      agoTime := agoTime
      description := description }

/-- parseJobList in src/unnamed/part_000: map then filter(Boolean). -/
def parseJobList (descOf : String → String) (items : List RawItem) : List JobRecord :=
  items.filterMap (parseItem descOf)

end Batch

/-- A cached value with its creation time (milliseconds). -/
structure CacheEntry (α : Type) where
  data : α
  timestamp : Nat
deriving DecidableEq, Repr

/-- The JobCache shape shared by both sources: a Map from string key to
entry, plus the per-instance TTL fixed in the constructor. -/
structure JobCache (α : Type) where
  ttl : Nat
  entries : List (String × CacheEntry α)
deriving DecidableEq, Repr

/-- Map.prototype.get on the underlying association list. -/
def lookupEntry {α : Type} : List (String × CacheEntry α) → String → Option (CacheEntry α)
  | [], _ => none
  | (k2, e) :: rest, k => if k2 = k then some e else lookupEntry rest k

/-- Map.prototype.set: replace in place when the key exists, append otherwise. -/
def setEntry {α : Type} : List (String × CacheEntry α) → String → CacheEntry α →
    List (String × CacheEntry α)
  | [], k, e => [(k, e)]
  | (k2, e2) :: rest, k, e =>
    if k2 = k then (k, e) :: rest else (k2, e2) :: setEntry rest k e

/-- Map.prototype.delete (Map keys are unique, so dropping every match on the
list model coincides with deleting the one entry). -/
def removeEntry {α : Type} (l : List (String × CacheEntry α)) (k : String) :
    List (String × CacheEntry α) :=
  l.filter (fun p => p.1 != k)

/-- JobCache set, common to both sources: stores the value with the current
time, fully replacing any entry under the same key. -/
def JobCache.set {α : Type} (c : JobCache α) (k : String) (v : α) (now : Nat) : JobCache α :=
  { c with entries := setEntry c.entries k ⟨v, now⟩ }

/-- JobCache get from src/index.js: data while strictly inside the TTL,
null otherwise; never mutates. -/
def JobCache.getSimple {α : Type} (c : JobCache α) (k : String) (now : Nat) : Option α :=
  match lookupEntry c.entries k with
  | some e => if now - e.timestamp < c.ttl then some e.data else none
  | none => none

/-- JobCache get from src/unnamed/part_000: deletes the entry and reports
absent when the age strictly exceeds the TTL. -/
def JobCache.getBatch {α : Type} (c : JobCache α) (k : String) (now : Nat) :
    Option α × JobCache α :=
  match lookupEntry c.entries k with
  | none => (none, c)
  | some e =>
    if c.ttl < now - e.timestamp then (none, { c with entries := removeEntry c.entries k })
    else (some e.data, c)

/-- TTL of the src/index.js cache instance: 1000 * 60 * 30 ms. -/
def simpleTTL : Nat := 1000 * 60 * 30

/-- TTL of the src/unnamed/part_000 cache instance: 1000 * 60 * 60 ms. -/
def batchTTL : Nat := 1000 * 60 * 60

/-- A freshly constructed cache. -/
def JobCache.empty {α : Type} (ttl : Nat) : JobCache α := ⟨ttl, []⟩

/-- The raw fields of the object passed to the Query constructor; absent JS
fields are the empty string (resp. 0), matching the falsy defaults. -/
structure QueryObj where
  host : String
  keyword : String
  location : String
  dateSincePosted : String
  jobType : String
  remoteFilter : String
  salary : String
  experienceLevel : String
  sortBy : String
  limit : Nat
  page : Nat
deriving DecidableEq, Repr

/-- An all-defaults query object. -/
def QueryObj.base : QueryObj := ⟨"", "", "", "", "", "", "", "", "", 0, 0⟩

/-- The Query value as the constructor in src/unnamed/part_000 builds it. -/
structure Query where
  host : String
  keyword : String
  location : String
  dateSincePosted : String
  jobType : String
  remoteFilter : String
  salary : String
  experienceLevel : String
  sortBy : String
  limit : Nat
  page : Nat
deriving DecidableEq, Repr

/-- function Query(queryObj): keyword and location are trimmed and their
whitespace runs replaced by a plus sign; the other strings pass through. -/
def Query.make (q : QueryObj) : Query :=
  { host := if q.host = "" then "www.linkedin.com" else q.host
    keyword := replaceWsRuns "+" (trimJs q.keyword)
    location := replaceWsRuns "+" (trimJs q.location)
    dateSincePosted := q.dateSincePosted
    jobType := q.jobType
    remoteFilter := q.remoteFilter
    salary := q.salary
    experienceLevel := q.experienceLevel
    sortBy := q.sortBy
    limit := q.limit
    page := q.page }

/-- Query.prototype.getDateSincePosted: lower-cased lookup in the fixed table. -/
def Query.getDateSincePosted (q : Query) : String :=
  let s := toLowerStr q.dateSincePosted
  if s = "past month" then "r2592000"
  else if s = "past week" then "r604800"
  else if s = "24hr" then "r86400"
  else ""

/-- Query.prototype.getExperienceLevel: lower-cased lookup in the fixed table. -/
def Query.getExperienceLevel (q : Query) : String :=
  let s := toLowerStr q.experienceLevel
  if s = "internship" then "1"
  else if s = "entry level" then "2"
  else if s = "associate" then "3"
  else if s = "senior" then "4"
  else if s = "director" then "5"
  else if s = "executive" then "6"
  else ""

/-- Query.prototype.getJobType: lower-cased lookup in the fixed table. -/
def Query.getJobType (q : Query) : String :=
  let s := toLowerStr q.jobType
  if s = "full time" then "F"
  else if s = "full-time" then "F"
  else if s = "part time" then "P"
  else if s = "part-time" then "P"
  else if s = "contract" then "C"
  else if s = "temporary" then "T"
  else if s = "volunteer" then "V"
  else if s = "internship" then "I"
  else ""

/-- Query.prototype.getRemoteFilter: lower-cased lookup in the fixed table. -/
def Query.getRemoteFilter (q : Query) : String :=
  let s := toLowerStr q.remoteFilter
  if s = "on-site" then "1"
  else if s = "on site" then "1"
  else if s = "remote" then "2"
  else if s = "hybrid" then "3"
  else ""

/-- Query.prototype.getSalary: lookup without lower-casing (the keys are the
decimal strings the numeric object keys coerce to). -/
def Query.getSalary (q : Query) : String :=
  if q.salary = "40000" then "1"
  else if q.salary = "60000" then "2"
  else if q.salary = "80000" then "3"
  else if q.salary = "100000" then "4"
  else if q.salary = "120000" then "5"
  else ""

/-- Query.prototype.getPage. -/
def Query.getPage (q : Query) : Nat := q.page * 25

/-- The name/value pairs Query.prototype.url appends, in source order. -/
def Query.params (q : Query) (start : Nat) : List (String × String) :=
  (if q.keyword ≠ "" then [("keywords", q.keyword)] else []) ++
  (if q.location ≠ "" then [("location", q.location)] else []) ++
  (if q.getDateSincePosted ≠ "" then [("f_TPR", q.getDateSincePosted)] else []) ++
  (if q.getSalary ≠ "" then [("f_SB2", q.getSalary)] else []) ++
  (if q.getExperienceLevel ≠ "" then [("f_E", q.getExperienceLevel)] else []) ++
  (if q.getRemoteFilter ≠ "" then [("f_WT", q.getRemoteFilter)] else []) ++
  (if q.getJobType ≠ "" then [("f_JT", q.getJobType)] else []) ++
  [("start", Nat.repr (start + q.getPage))] ++
  (if q.sortBy = "recent" then [("sortBy", "DD")]
   else if q.sortBy = "relevant" then [("sortBy", "R")] else [])

/-- URLSearchParams.prototype.toString. -/
def serializeParams (ps : List (String × String)) : String :=
  String.intercalate "&" (ps.map (fun p => formUrlEncode p.1 ++ "=" ++ formUrlEncode p.2))

/-- Query.prototype.url. -/
def Query.url (q : Query) (start : Nat) : String :=
  "https://" ++ q.host ++ "/jobs-guest/jobs/api/seeMoreJobPostings/search?" ++
    serializeParams (q.params start)

/-- The URL built inline by fetchLinkedInJobs in src/index.js. -/
def simpleUrl (keyword location : String) (start : Nat) : String :=
  "https://www.linkedin.com/jobs-guest/jobs/api/seeMoreJobPostings/search?keywords=" ++
    encodeURIComponent keyword ++ "&location=" ++ encodeURIComponent location ++
    "&start=" ++ Nat.repr start

/-- Classification of a failed dispatch (fetchJobBatch rethrows HTTP 429 as a
distinct rate-limit error, anything else as a generic one). -/
inductive Failure
  | rateLimited
  | generic
deriving DecidableEq, Repr

/-- Outcome of one fetchJobBatch call: the parsed records, or a raised error. -/
inductive BatchResult (α : Type)
  | ok (jobs : List α)
  | err (f : Failure)
deriving DecidableEq, Repr

/-- What a pagination loop run reports: the accumulated records, the number
of page fetches issued, and the backoff sleeps performed (ms), in order. -/
structure LoopOut (α : Type) where
  jobs : List α
  calls : Nat
  sleeps : List Nat
deriving DecidableEq, Repr

namespace Batch

/-- The while loop of Query.prototype.getJobs in src/unnamed/part_000.
`fetch n` is the outcome of the (n+1)-th fetchJobBatch call; `fuel` bounds
the number of iterations modelled (none = not terminated within fuel).
State mirrors the source: start offset, allJobs, consecutiveErrors, plus the
call counter indexing the oracle and the backoff sleeps issued so far. -/
def getJobsLoop {α : Type} (fetch : Nat → BatchResult α) (lim : Nat) :
    Nat → Nat → List α → Nat → Nat → List Nat → Option (LoopOut α)
  | 0, _, _, _, _, _ => none
  | fuel + 1, start, allJobs, consecutiveErrors, calls, sleeps =>
    match fetch calls with
    | .ok jobs =>
      if jobs.isEmpty then some ⟨allJobs, calls + 1, sleeps⟩
      else
        let allJobs2 := allJobs ++ jobs
        if lim ≠ 0 ∧ lim ≤ allJobs2.length then some ⟨allJobs2.take lim, calls + 1, sleeps⟩
        else getJobsLoop fetch lim fuel (start + 25) allJobs2 0 (calls + 1) sleeps
    | .err _ =>
      if 3 ≤ consecutiveErrors + 1 then some ⟨allJobs, calls + 1, sleeps⟩
      else
        getJobsLoop fetch lim fuel start allJobs (consecutiveErrors + 1) (calls + 1)
          (sleeps ++ [2 ^ (consecutiveErrors + 1) * 1000])

/-- What Query.prototype.getJobs leaves behind: result list, final cache
state, fetch count and backoff sleeps. -/
structure GetJobsOut (α : Type) where
  result : List α
  cache : JobCache (List α)
  calls : Nat
  sleeps : List Nat
deriving DecidableEq, Repr

/-- Query.prototype.getJobs: cache probe under the canonical first-page URL,
then the pagination loop, then the conditional store of a non-empty result. -/
def Query.getJobs {α : Type} (q : Query) (fetch : Nat → BatchResult α) (fuel : Nat)
    (cache : JobCache (List α)) (now : Nat) : Option (GetJobsOut α) :=
  let key := q.url 0
  match cache.getBatch key now with
  | (some cached, cache2) => some ⟨cached, cache2, 0, []⟩
  | (none, cache2) =>
    match getJobsLoop fetch q.limit fuel 0 [] 0 0 [] with
    | none => none
    | some out =>
      let cache3 := if out.jobs.length > 0 then cache2.set key out.jobs now else cache2
      some ⟨out.jobs, cache3, out.calls, out.sleeps⟩

end Batch

namespace Simple

/-- Outcome of one iteration of the while loop of fetchLinkedInJobs in
src/index.js: the body raised, or safeRequest returned null, or the request
parsed to a page of records. -/
inductive LoopOutcome (α : Type)
  | raise
  | nullData
  | pageData (jobs : List α)
deriving DecidableEq, Repr

/-- The while loop of fetchLinkedInJobs in src/index.js. `oracle n` is the
outcome of the (n+1)-th iteration body; state mirrors the source: start
offset, jobs, attempts, plus the call counter and the backoff sleeps. -/
def fetchLoop {α : Type} (oracle : Nat → LoopOutcome α) :
    Nat → Nat → List α → Nat → Nat → List Nat → Option (LoopOut α)
  | 0, _, _, _, _, _ => none
  | fuel + 1, start, jobs, attempts, calls, sleeps =>
    if 5 ≤ attempts then some ⟨jobs, calls, sleeps⟩
    else
      match oracle calls with
      | .raise =>
        fetchLoop oracle fuel start jobs (attempts + 1) (calls + 1)
          (sleeps ++ [5000 * (attempts + 1)])
      | .nullData => some ⟨jobs, calls + 1, sleeps⟩
      | .pageData newJobs =>
        if newJobs.isEmpty then some ⟨jobs, calls + 1, sleeps⟩
        else fetchLoop oracle fuel (start + 25) (jobs ++ newJobs) 0 (calls + 1) sleeps

/-- fetchLinkedInJobs in src/index.js, from the initial state. -/
def fetchLinkedInJobs {α : Type} (oracle : Nat → LoopOutcome α) (fuel : Nat) :
    Option (LoopOut α) :=
  fetchLoop oracle fuel 0 [] 0 0 []

end Simple

/-- A listing item whose title selector yields text but whose subtitle
selector yields nothing (non-empty position, empty company). -/
def posOnlyItem : RawItem :=
  { titleText := "Engineer", subtitleText := "", locationText := "", datetimeAttr := none,
    salaryText := "", hrefAttr := none, logoAttr := none, agoText := "", snippetText := "" }

/-- A listing item on which every selector yields nothing. -/
def emptyItem : RawItem :=
  { titleText := "", subtitleText := "", locationText := "", datetimeAttr := none,
    salaryText := "", hrefAttr := none, logoAttr := none, agoText := "", snippetText := "" }

/-- A query object whose keyword and location hold internal spaces. -/
def spacedQueryObj : QueryObj :=
  { QueryObj.base with keyword := "software engineer", location := "New York" }

/-- Two batch results that the getJobs loop cannot distinguish: equal pages,
or failures of possibly different classification. -/
def sameShape {α : Type} : BatchResult α → BatchResult α → Prop
  | .ok l, .ok l2 => l = l2
  | .err _, .err _ => True
  | .ok _, .err _ => False
  | .err _, .ok _ => False

/-- Fetch outcomes fail, fail, succeed, fail, fail, succeed, empty. -/
def ffsffOracle : Nat → BatchResult Nat
  | 2 => .ok (List.replicate 25 7)
  | 5 => .ok (List.replicate 25 7)
  | 6 => .ok []
  | _ => .err .generic

/-- Page fetches returning 25, 25, then 0 records. -/
def pages252 : Nat → BatchResult Nat
  | 0 => .ok (List.replicate 25 1)
  | 1 => .ok (List.replicate 25 2)
  | _ => .ok []

/-- The same page sequence for the simple pipeline loop. -/
def simplePages252 : Nat → Simple.LoopOutcome Nat
  | 0 => .pageData (List.replicate 25 1)
  | 1 => .pageData (List.replicate 25 2)
  | _ => .pageData []

/-- A minimal query object with just a keyword. -/
def xObj : QueryObj := { QueryObj.base with keyword := "x" }

/-- A batch cache holding one entry, created at time 0, under the canonical
first-page URL of the `xObj` query. -/
def staleEntryCache : JobCache (List Nat) :=
  ⟨batchTTL, [((Query.make xObj).url 0, ⟨[7], 0⟩)]⟩

/-! Helper lemmas. -/

theorem lookupEntry_setEntry {α : Type} (l : List (String × CacheEntry α)) (k : String)
    (e : CacheEntry α) : lookupEntry (setEntry l k e) k = some e := by
  induction l with
  | nil => simp [setEntry, lookupEntry]
  | cons p rest ih =>
    by_cases hp : p.1 = k
    · simp [setEntry, hp, lookupEntry]
    · simp [setEntry, hp, lookupEntry, ih]

theorem setEntry_setEntry {α : Type} (l : List (String × CacheEntry α)) (k : String)
    (e1 e2 : CacheEntry α) : setEntry (setEntry l k e1) k e2 = setEntry l k e2 := by
  induction l with
  | nil => simp [setEntry]
  | cons p rest ih =>
    by_cases hp : p.1 = k
    · simp [setEntry, hp]
    · simp [setEntry, hp, ih]

theorem lookupEntry_removeEntry {α : Type} (l : List (String × CacheEntry α)) (k : String) :
    lookupEntry (removeEntry l k) k = none := by
  induction l with
  | nil => rfl
  | cons p rest ih =>
    by_cases hp : p.1 = k
    · simpa [removeEntry, List.filter_cons, hp] using ih
    · simpa [removeEntry, List.filter_cons, hp, lookupEntry] using ih

theorem getBatch_none_absent {α : Type} (c : JobCache α) (k : String) (now : Nat)
    (c2 : JobCache α) (h : c.getBatch k now = (none, c2)) :
    lookupEntry c2.entries k = none := by
  unfold JobCache.getBatch at h
  split at h
  · next hl =>
    simp only [Prod.mk.injEq] at h
    rw [← h.2]
    exact hl
  · next e hl =>
    split at h
    · simp only [Prod.mk.injEq] at h
      rw [← h.2]
      exact lookupEntry_removeEntry c.entries k
    · simp only [Prod.mk.injEq] at h
      cases h.1

theorem char_toLower_fix {c d : Char} (hd : d.toNat < 65) (h : c.toLower = d) : c = d := by
  unfold Char.toLower at h
  dsimp only at h
  split at h
  · next hr =>
    exfalso
    have hv : (c.toNat + 32).isValidChar := Or.inl (by omega)
    have ht : (Char.ofNat (c.toNat + 32)).toNat = c.toNat + 32 := by
      rw [Char.ofNat, dif_pos hv]
      rfl
    rw [h] at ht
    omega
  · exact h

theorem map_toLower_fix : ∀ {l m : List Char}, (∀ c ∈ m, c.toNat < 65) →
    l.map Char.toLower = m → l = m := by
  intro l
  induction l with
  | nil =>
    intro m _ h
    simpa using h
  | cons c cs ih =>
    intro m hm h
    cases m with
    | nil => simp at h
    | cons d ds =>
      simp only [List.map_cons, List.cons.injEq] at h
      obtain ⟨h1, h2⟩ := h
      have hc : c = d := char_toLower_fix (hm d (by simp)) h1
      have hcs : cs = ds := ih (fun x hx => hm x (by simp [hx])) h2
      simp [hc, hcs]

theorem toLowerStr_fix {s t : String} (ht : ∀ c ∈ t.data, c.toNat < 65)
    (h : toLowerStr s = t) : s = t := by
  have hd : s.data.map Char.toLower = t.data := congrArg String.data h
  have hst := map_toLower_fix ht hd
  cases s
  cases t
  exact congrArg String.mk hst

theorem eq_key_iff {s1 s2 : String} (h : toLowerStr s1 = toLowerStr s2) (k : String)
    (hk : ∀ c ∈ k.data, c.toNat < 65) (hfix : toLowerStr k = k) :
    s1 = k ↔ s2 = k := by
  constructor
  · intro hs
    subst hs
    exact toLowerStr_fix hk (h.symm.trans hfix)
  · intro hs
    subst hs
    exact toLowerStr_fix hk (h.trans hfix)

theorem getJobsLoop_shape_congr {α : Type} (fetch fetch2 : Nat → BatchResult α)
    (hs : ∀ n, sameShape (fetch n) (fetch2 n)) (lim : Nat) :
    ∀ (fuel start : Nat) (acc : List α) (ce calls : Nat) (sleeps : List Nat),
      Batch.getJobsLoop fetch lim fuel start acc ce calls sleeps =
        Batch.getJobsLoop fetch2 lim fuel start acc ce calls sleeps := by
  intro fuel
  induction fuel with
  | zero => intro start acc ce calls sleeps; rfl
  | succ n ih =>
    intro start acc ce calls sleeps
    have h := hs calls
    cases hf : fetch calls with
    | ok l =>
      cases hf2 : fetch2 calls with
      | ok l2 =>
        rw [hf, hf2] at h
        have hl : l = l2 := h
        subst hl
        simp only [Batch.getJobsLoop, hf, hf2]
        by_cases he : l.isEmpty
        · simp [he]
        · simp only [Bool.not_eq_true] at he
          simp only [he, Bool.false_eq_true, if_false]
          split
          · rfl
          · exact ih (start + 25) (acc ++ l) 0 (calls + 1) sleeps
      | err f2 =>
        rw [hf, hf2] at h
        exact absurd h (by simp [sameShape])
    | err f =>
      cases hf2 : fetch2 calls with
      | ok l2 =>
        rw [hf, hf2] at h
        exact absurd h (by simp [sameShape])
      | err f2 =>
        simp only [Batch.getJobsLoop, hf, hf2]
        split
        · rfl
        · exact ih start acc (ce + 1) (calls + 1) (sleeps ++ [2 ^ (ce + 1) * 1000])

/-! Claim theorems. -/

/-- Claim C1, as stated, is false on the code: the batch parser
(src/unnamed/part_000) discards an item whose extracted company is empty even
when its extracted position is non-empty, and the simple parser (src/index.js)
keeps an item whose position AND company are both empty. -/
theorem c1_counterexample :
    Batch.parseJobList (fun _ => "") [posOnlyItem] = [] ∧
    (Simple.parseJobList [emptyItem]).length = 1 := by
  constructor
  · rfl
  · rfl

/-- Claim C1 amended: the batch parser discards an item exactly when its
extracted position OR its extracted company is empty (so empty position AND
empty company is discarded, but so is empty company with non-empty position);
the simple parser applies no emptiness filter and keeps every item. -/
theorem c1_amended :
    (∀ (descOf : String → String) (it : RawItem),
        Batch.parseItem descOf it = none ↔
          (trimJs it.titleText = "" ∨ trimJs it.subtitleText = "")) ∧
    (∀ items : List RawItem, (Simple.parseJobList items).length = items.length) := by
  constructor
  · intro d it
    by_cases h : trimJs it.titleText = "" ∨ trimJs it.subtitleText = ""
    · simp [Batch.parseItem, h]
    · simp [Batch.parseItem, h]
  · intro items
    simp [Simple.parseJobList]

/-- Claim C2, as stated, is false on the code: in the batch pipeline the
keyword "software engineer" reaches the URL as software%2Bengineer (the
whitespace run is first replaced by a plus sign, which URLSearchParams then
percent-encodes), not as a percent-encoded space, which would read
software+engineer under the form serializer or software%20engineer under
encodeURIComponent. -/
theorem c2_counterexample :
    (Query.make spacedQueryObj).keyword = "software+engineer" ∧
    (Query.make spacedQueryObj).url 0 =
      "https://www.linkedin.com/jobs-guest/jobs/api/seeMoreJobPostings/search?keywords=software%2Bengineer&location=New%2BYork&start=0" ∧
    formUrlEncode "software engineer" = "software+engineer" ∧
    encodeURIComponent "software engineer" = "software%20engineer" ∧
    ("software%2Bengineer" ≠ "software+engineer" ∧
     "software%2Bengineer" ≠ "software%20engineer") := by
  refine ⟨by decide, by decide, by decide, by decide, by decide, by decide⟩

/-- Claim C2 amended: in the batch pipeline, keyword and location are trimmed
and their internal whitespace runs replaced by a literal plus sign, which the
URLSearchParams serializer then percent-encodes as %2B, so an internal space
is replaced by a different character rather than percent-encoded; in the
simple pipeline, keyword and location pass through encodeURIComponent with no
trimming or collapsing, and an internal space encodes as %20. -/
theorem c2_amended :
    (Query.make { QueryObj.base with
        keyword := "  software   engineer ", location := " New  York " }).url 0 =
      "https://www.linkedin.com/jobs-guest/jobs/api/seeMoreJobPostings/search?keywords=software%2Bengineer&location=New%2BYork&start=0" ∧
    simpleUrl "software engineer" "New York" 0 =
      "https://www.linkedin.com/jobs-guest/jobs/api/seeMoreJobPostings/search?keywords=software%20engineer&location=New%20York&start=0" ∧
    simpleUrl "  software   engineer " " New  York " 0 =
      "https://www.linkedin.com/jobs-guest/jobs/api/seeMoreJobPostings/search?keywords=%20%20software%20%20%20engineer%20&location=%20New%20%20York%20&start=0" := by
  refine ⟨by decide, by decide, by decide⟩

/-- Claim C3: in fetchLinkedInJobs (src/index.js), once the attempt counter
reaches 5 the loop ends returning the accumulated records (not an error); a
raised error increments the counter and sleeps 5000 ms times its new value;
a successful non-empty page fetch resets the counter to 0; and five straight
raised errors produce sleeps 5000..25000 and return the accumulated list. -/
theorem c3_bounded_attempt_policy :
    (∀ {α : Type} (oracle : Nat → Simple.LoopOutcome α) (fuel start : Nat) (jobs : List α)
        (attempts calls : Nat) (sleeps : List Nat), 5 ≤ attempts →
        Simple.fetchLoop oracle (fuel + 1) start jobs attempts calls sleeps =
          some ⟨jobs, calls, sleeps⟩) ∧
    (∀ {α : Type} (oracle : Nat → Simple.LoopOutcome α) (fuel start : Nat) (jobs : List α)
        (attempts calls : Nat) (sleeps : List Nat), attempts < 5 →
        oracle calls = .raise →
        Simple.fetchLoop oracle (fuel + 1) start jobs attempts calls sleeps =
          Simple.fetchLoop oracle fuel start jobs (attempts + 1) (calls + 1)
            (sleeps ++ [5000 * (attempts + 1)])) ∧
    (∀ {α : Type} (oracle : Nat → Simple.LoopOutcome α) (fuel start : Nat)
        (jobs newJobs : List α) (attempts calls : Nat) (sleeps : List Nat), attempts < 5 →
        oracle calls = .pageData newJobs → newJobs ≠ [] →
        Simple.fetchLoop oracle (fuel + 1) start jobs attempts calls sleeps =
          Simple.fetchLoop oracle fuel (start + 25) (jobs ++ newJobs) 0 (calls + 1) sleeps) ∧
    Simple.fetchLinkedInJobs (fun _ => Simple.LoopOutcome.raise (α := Nat)) 10 =
      some ⟨[], 5, [5000, 10000, 15000, 20000, 25000]⟩ := by
  refine ⟨?_, ?_, ?_, by decide⟩
  · intro α oracle fuel start jobs attempts calls sleeps h
    simp [Simple.fetchLoop, h]
  · intro α oracle fuel start jobs attempts calls sleeps h hr
    simp [Simple.fetchLoop, Nat.not_le.mpr h, hr]
  · intro α oracle fuel start jobs newJobs attempts calls sleeps h ho hne
    cases newJobs with
    | nil => exact absurd rfl hne
    | cons a l => simp [Simple.fetchLoop, Nat.not_le.mpr h, ho]

/-- Witness for c3_bounded_attempt_policy: a counter already at the cap ends
the loop at once with the accumulated records. -/
theorem c3_witness :
    5 ≤ 5 ∧ Simple.fetchLoop (fun _ => Simple.LoopOutcome.raise (α := Nat)) 1 0 [] 5 7 [9] =
      some ⟨[], 7, [9]⟩ :=
  ⟨by decide,
   c3_bounded_attempt_policy.1 (fun _ => Simple.LoopOutcome.raise) 0 0 [] 5 7 [9] (by decide)⟩

/-- Claim C4, as stated, is false on the code: in Query.prototype.getJobs
three consecutive failures produce only two backoff sleeps (2000 then 4000
ms); the third failure reaches the cap and breaks before the delay call, so
not every failure sleeps 2 to the power consecutiveErrors times 1000 ms. -/
theorem c4_counterexample :
    Batch.getJobsLoop (fun _ => BatchResult.err Failure.generic (α := Nat)) 0 10 0 [] 0 0 [] =
      some ⟨[], 3, [2000, 4000]⟩ ∧
    ([2000, 4000] : List Nat).length ≠ 3 := by
  refine ⟨by decide, by decide⟩

/-- Claim C4 amended: each batch-fetch failure increments the consecutive
failure counter; a failure leaving the counter below the cap of 3 sleeps 2 to
the power of the new counter value times 1000 ms, while the failure that
reaches 3 stops the loop immediately without sleeping, returning the records
accumulated before the failures began; a successful non-empty fetch (below
the limit) resets the counter to 0, so the sequence fail, fail, success,
fail, fail does not terminate the loop; and a rate-limited failure is counted
exactly like a generic one. -/
theorem c4_consecutive_error_policy :
    (∀ {α : Type} (fetch : Nat → BatchResult α) (lim fuel start : Nat) (acc : List α)
        (ce calls : Nat) (sleeps : List Nat) (f : Failure), fetch calls = .err f →
        ce + 1 < 3 →
        Batch.getJobsLoop fetch lim (fuel + 1) start acc ce calls sleeps =
          Batch.getJobsLoop fetch lim fuel start acc (ce + 1) (calls + 1)
            (sleeps ++ [2 ^ (ce + 1) * 1000])) ∧
    (∀ {α : Type} (fetch : Nat → BatchResult α) (lim fuel start : Nat) (acc : List α)
        (ce calls : Nat) (sleeps : List Nat) (f : Failure), fetch calls = .err f →
        3 ≤ ce + 1 →
        Batch.getJobsLoop fetch lim (fuel + 1) start acc ce calls sleeps =
          some ⟨acc, calls + 1, sleeps⟩) ∧
    (∀ {α : Type} (fetch : Nat → BatchResult α) (lim fuel start : Nat) (acc jobs : List α)
        (ce calls : Nat) (sleeps : List Nat), fetch calls = .ok jobs → jobs ≠ [] →
        ¬(lim ≠ 0 ∧ lim ≤ (acc ++ jobs).length) →
        Batch.getJobsLoop fetch lim (fuel + 1) start acc ce calls sleeps =
          Batch.getJobsLoop fetch lim fuel (start + 25) (acc ++ jobs) 0 (calls + 1) sleeps) ∧
    (Batch.getJobsLoop ffsffOracle 0 20 0 [] 0 0 [] =
      some ⟨List.replicate 50 7, 7, [2000, 4000, 2000, 4000]⟩) ∧
    (∀ {α : Type} (fetch fetch2 : Nat → BatchResult α) (lim fuel start : Nat) (acc : List α)
        (ce calls : Nat) (sleeps : List Nat), (∀ n, sameShape (fetch n) (fetch2 n)) →
        Batch.getJobsLoop fetch lim fuel start acc ce calls sleeps =
          Batch.getJobsLoop fetch2 lim fuel start acc ce calls sleeps) := by
  refine ⟨?_, ?_, ?_, by decide, ?_⟩
  · intro α fetch lim fuel start acc ce calls sleeps f hf hce
    simp [Batch.getJobsLoop, hf, Nat.not_le.mpr hce]
  · intro α fetch lim fuel start acc ce calls sleeps f hf hce
    simp [Batch.getJobsLoop, hf, hce]
  · intro α fetch lim fuel start acc jobs ce calls sleeps hf hne hlim
    cases jobs with
    | nil => exact absurd rfl hne
    | cons a l =>
      simp only [Batch.getJobsLoop, hf]
      rw [if_neg (by simp), if_neg hlim]
  · intro α fetch fetch2 lim fuel start acc ce calls sleeps hs
    exact getJobsLoop_shape_congr fetch fetch2 hs lim fuel start acc ce calls sleeps

/-- Witness for c4_consecutive_error_policy: a first failure increments the
counter to 1 and appends the 2000 ms backoff sleep. -/
theorem c4_witness :
    (fun _ : Nat => BatchResult.err Failure.generic (α := Nat)) 0 =
        BatchResult.err Failure.generic ∧ 0 + 1 < 3 ∧
    Batch.getJobsLoop (fun _ => BatchResult.err Failure.generic (α := Nat)) 0 1 0 [] 0 0 [] =
      Batch.getJobsLoop (fun _ => BatchResult.err Failure.generic (α := Nat)) 0 0 0 [] 1 1
        [2000] :=
  ⟨rfl, by decide,
   c4_consecutive_error_policy.1 (fun _ => BatchResult.err Failure.generic) 0 0 0 [] 0 0 []
     Failure.generic rfl (by decide)⟩

/-- Claim C5: whenever a successful page pushes the accumulated count to the
requested limit (limit non-zero), Query.prototype.getJobs truncates to
exactly `limit` records and terminates; with limit 10 and a first page of 25
records, exactly 10 records come back after a single fetch, both at the loop
level and through Query.getJobs on a fresh cache. -/
theorem c5_limit_truncation :
    (∀ {α : Type} (fetch : Nat → BatchResult α) (lim fuel start : Nat) (acc jobs : List α)
        (ce calls : Nat) (sleeps : List Nat), fetch calls = .ok jobs → jobs ≠ [] →
        lim ≠ 0 → lim ≤ (acc ++ jobs).length →
        Batch.getJobsLoop fetch lim (fuel + 1) start acc ce calls sleeps =
          some ⟨(acc ++ jobs).take lim, calls + 1, sleeps⟩ ∧
        ((acc ++ jobs).take lim).length = lim) ∧
    (Batch.getJobsLoop (fun _ => BatchResult.ok (List.range 25)) 10 5 0 [] 0 0 [] =
      some ⟨List.range 10, 1, []⟩) ∧
    (Option.map (fun o : Batch.GetJobsOut Nat => o.result)
        (Batch.Query.getJobs (Query.make { xObj with limit := 10 })
          (fun _ => BatchResult.ok (List.range 25)) 5 (JobCache.empty batchTTL) 0) =
        some (List.range 10) ∧
     Option.map (fun o : Batch.GetJobsOut Nat => o.calls)
        (Batch.Query.getJobs (Query.make { xObj with limit := 10 })
          (fun _ => BatchResult.ok (List.range 25)) 5 (JobCache.empty batchTTL) 0) =
        some 1) := by
  refine ⟨?_, by decide, by decide, by decide⟩
  · intro α fetch lim fuel start acc jobs ce calls sleeps hf hne hl0 hle
    cases jobs with
    | nil => exact absurd rfl hne
    | cons a l =>
      constructor
      · simp only [Batch.getJobsLoop, hf]
        rw [if_neg (by simp), if_pos ⟨hl0, hle⟩]
      · rw [List.length_take]
        omega

/-- Witness for c5_limit_truncation: limit 10 reached by a 25-record first
page truncates to exactly 10. -/
theorem c5_witness :
    (fun _ : Nat => BatchResult.ok (List.range 25)) 0 = BatchResult.ok (List.range 25) ∧
    List.range 25 ≠ [] ∧ (10 : Nat) ≠ 0 ∧ 10 ≤ (([] : List Nat) ++ List.range 25).length ∧
    (Batch.getJobsLoop (fun _ => BatchResult.ok (List.range 25)) 10 1 0 [] 0 0 [] =
      some ⟨(([] : List Nat) ++ List.range 25).take 10, 1, []⟩ ∧
     ((([] : List Nat) ++ List.range 25).take 10).length = 10) :=
  ⟨rfl, by decide, by decide, by decide,
   c5_limit_truncation.1 (fun _ => BatchResult.ok (List.range 25)) 10 0 0 [] (List.range 25)
     0 0 [] rfl (by decide) (by decide) (by decide)⟩

/-- Claim C6: a page fetch yielding zero records terminates the pagination
loop; with pages of 25, 25, then 0 records, both pipelines return exactly the
50 accumulated records after exactly 3 fetches (and no backoff sleeps). -/
theorem c6_zero_page_terminates :
    Batch.getJobsLoop pages252 0 10 0 [] 0 0 [] =
      some ⟨List.replicate 25 1 ++ List.replicate 25 2, 3, []⟩ ∧
    Simple.fetchLoop simplePages252 10 0 [] 0 0 [] =
      some ⟨List.replicate 25 1 ++ List.replicate 25 2, 3, []⟩ ∧
    (List.replicate 25 1 ++ List.replicate 25 2 : List Nat).length = 50 := by
  refine ⟨by decide, by decide, by decide⟩

/-- Claim C7: set then get before the TTL has elapsed returns the stored
data, and after the TTL has elapsed returns absent, for both cache variants
(the simple get requires age strictly below the TTL, the batch get evicts
only when age strictly exceeds it, so the claim holds away from the exact
boundary); the simple pipeline cache lives 30 minutes and the batch pipeline
cache 60 minutes; and a set under an existing key fully replaces the prior
entry. -/
theorem c7_cache_ttl :
    (∀ (α : Type) (c : JobCache α) (k : String) (v : α) (t now : Nat),
        now - t < c.ttl → (c.set k v t).getSimple k now = some v) ∧
    (∀ (α : Type) (c : JobCache α) (k : String) (v : α) (t now : Nat),
        c.ttl < now - t → (c.set k v t).getSimple k now = none) ∧
    (∀ (α : Type) (c : JobCache α) (k : String) (v : α) (t now : Nat),
        now - t < c.ttl → ((c.set k v t).getBatch k now).1 = some v) ∧
    (∀ (α : Type) (c : JobCache α) (k : String) (v : α) (t now : Nat),
        c.ttl < now - t → ((c.set k v t).getBatch k now).1 = none) ∧
    simpleTTL = 30 * 60 * 1000 ∧ batchTTL = 60 * 60 * 1000 ∧
    (∀ (α : Type) (c : JobCache α) (k : String) (v1 v2 : α) (t1 t2 : Nat),
        (c.set k v1 t1).set k v2 t2 = c.set k v2 t2) := by
  refine ⟨?_, ?_, ?_, ?_, by decide, by decide, ?_⟩
  · intro α c k v t now h
    simp [JobCache.set, JobCache.getSimple, lookupEntry_setEntry, h]
  · intro α c k v t now h
    simp [JobCache.set, JobCache.getSimple, lookupEntry_setEntry, Nat.not_lt.mpr (Nat.le_of_lt h)]
  · intro α c k v t now h
    simp [JobCache.set, JobCache.getBatch, lookupEntry_setEntry, Nat.not_lt.mpr (Nat.le_of_lt h)]
  · intro α c k v t now h
    simp [JobCache.set, JobCache.getBatch, lookupEntry_setEntry, h]
  · intro α c k v1 v2 t1 t2
    simp [JobCache.set, setEntry_setEntry]

/-- Witness for c7_cache_ttl: a value stored at time 100 is returned at time
200, well inside the 30 minute TTL. -/
theorem c7_witness :
    200 - 100 < (JobCache.empty (α := Nat) simpleTTL).ttl ∧
    ((JobCache.empty (α := Nat) simpleTTL).set "key" 42 100).getSimple "key" 200 = some 42 :=
  ⟨by decide, c7_cache_ttl.1 Nat (JobCache.empty simpleTTL) "key" 42 100 200 (by decide)⟩

/-- Claim C8: fetchJobDescription returns the sentinel on every fetch or
parse failure, returns the sentinel when both the primary and the secondary
selector yield (whitespace-only) empty text, and in every case returns a
plain string - the sentinel, the trimmed primary text, or the trimmed
secondary text - never propagating an error. -/
theorem c8_description_sentinel :
    (∀ e : Unit, Batch.fetchJobDescription (.error e) = "Description not available") ∧
    (∀ p : Batch.DetailPage, trimJs p.primaryText = "" → trimJs p.secondaryText = "" →
        Batch.fetchJobDescription (.ok p) = "Description not available") ∧
    (∀ o : Except Unit Batch.DetailPage,
        Batch.fetchJobDescription o = "Description not available" ∨
        (∃ p, o = .ok p ∧
          (Batch.fetchJobDescription o = trimJs p.primaryText ∨
           Batch.fetchJobDescription o = trimJs p.secondaryText))) := by
  refine ⟨fun e => rfl, ?_, ?_⟩
  · intro p h1 h2
    simp [Batch.fetchJobDescription, h1, h2]
  · intro o
    cases o with
    | error e => exact Or.inl rfl
    | ok p =>
      by_cases h1 : trimJs p.primaryText = ""
      · by_cases h2 : trimJs p.secondaryText = ""
        · exact Or.inl (by simp [Batch.fetchJobDescription, h1, h2])
        · exact Or.inr ⟨p, rfl, Or.inr (by simp [Batch.fetchJobDescription, h1, h2])⟩
      · exact Or.inr ⟨p, rfl, Or.inl (by simp [Batch.fetchJobDescription, h1])⟩

/-- Witness for c8_description_sentinel: a page whose two selector texts are
whitespace-only yields the sentinel. -/
theorem c8_witness :
    trimJs "  " = "" ∧ trimJs "" = "" ∧
    Batch.fetchJobDescription (.ok ⟨"  ", ""⟩) = "Description not available" :=
  ⟨by decide, by decide, c8_description_sentinel.2.1 ⟨"  ", ""⟩ (by decide) (by decide)⟩

theorem mem_ite_singleton {c : Prop} [Decidable c] {kv x : String × String}
    (h : kv ∈ (if c then [x] else [])) : kv = x ∧ c := by
  split at h
  · next hc =>
    simp only [List.mem_singleton] at h
    exact ⟨h, hc⟩
  · simp at h

theorem params_key_cases {q : Query} {start : Nat} {kv : String × String}
    (h : kv ∈ q.params start) :
    kv.1 = "keywords" ∨ kv.1 = "location" ∨
    (kv.1 = "f_TPR" ∧ q.getDateSincePosted ≠ "") ∨
    (kv.1 = "f_SB2" ∧ q.getSalary ≠ "") ∨
    (kv.1 = "f_E" ∧ q.getExperienceLevel ≠ "") ∨
    (kv.1 = "f_WT" ∧ q.getRemoteFilter ≠ "") ∨
    (kv.1 = "f_JT" ∧ q.getJobType ≠ "") ∨
    kv.1 = "start" ∨ kv.1 = "sortBy" := by
  simp only [Query.params, List.append_assoc, List.mem_append] at h
  rcases h with h | h | h | h | h | h | h | h | h
  · exact Or.inl (by rw [(mem_ite_singleton h).1])
  · exact Or.inr (Or.inl (by rw [(mem_ite_singleton h).1]))
  · obtain ⟨h1, h2⟩ := mem_ite_singleton h
    exact Or.inr (Or.inr (Or.inl ⟨by rw [h1], h2⟩))
  · obtain ⟨h1, h2⟩ := mem_ite_singleton h
    exact Or.inr (Or.inr (Or.inr (Or.inl ⟨by rw [h1], h2⟩)))
  · obtain ⟨h1, h2⟩ := mem_ite_singleton h
    exact Or.inr (Or.inr (Or.inr (Or.inr (Or.inl ⟨by rw [h1], h2⟩))))
  · obtain ⟨h1, h2⟩ := mem_ite_singleton h
    exact Or.inr (Or.inr (Or.inr (Or.inr (Or.inr (Or.inl ⟨by rw [h1], h2⟩)))))
  · obtain ⟨h1, h2⟩ := mem_ite_singleton h
    exact Or.inr (Or.inr (Or.inr (Or.inr (Or.inr (Or.inr (Or.inl ⟨by rw [h1], h2⟩))))))
  · simp only [List.mem_singleton] at h
    exact Or.inr (Or.inr (Or.inr (Or.inr (Or.inr (Or.inr (Or.inr (Or.inl (by rw [h]))))))))
  · right; right; right; right; right; right; right; right
    split at h
    · simp only [List.mem_singleton] at h
      rw [h]
    · split at h
      · simp only [List.mem_singleton] at h
        rw [h]
      · simp at h

/-- Claim C9: an unrecognized or empty value for dateSincePosted, salary,
experienceLevel, remoteFilter or jobType makes the corresponding lookup
return the empty string and the built parameter list omit that parameter
entirely (the lookups are total, so no error is raised); and each lookup
matches its fixed table case-insensitively: two queries whose relevant field
agrees up to lower-casing translate identically (for salary the table keys
are digit strings, untouched by case mapping). -/
theorem c9_filter_vocabulary :
    (∀ (q : Query) (start : Nat), q.getDateSincePosted = "" →
        "f_TPR" ∉ (q.params start).map Prod.fst) ∧
    (∀ (q : Query) (start : Nat), q.getSalary = "" →
        "f_SB2" ∉ (q.params start).map Prod.fst) ∧
    (∀ (q : Query) (start : Nat), q.getExperienceLevel = "" →
        "f_E" ∉ (q.params start).map Prod.fst) ∧
    (∀ (q : Query) (start : Nat), q.getRemoteFilter = "" →
        "f_WT" ∉ (q.params start).map Prod.fst) ∧
    (∀ (q : Query) (start : Nat), q.getJobType = "" →
        "f_JT" ∉ (q.params start).map Prod.fst) ∧
    (∀ q1 q2 : Query, toLowerStr q1.dateSincePosted = toLowerStr q2.dateSincePosted →
        q1.getDateSincePosted = q2.getDateSincePosted) ∧
    (∀ q1 q2 : Query, toLowerStr q1.experienceLevel = toLowerStr q2.experienceLevel →
        q1.getExperienceLevel = q2.getExperienceLevel) ∧
    (∀ q1 q2 : Query, toLowerStr q1.jobType = toLowerStr q2.jobType →
        q1.getJobType = q2.getJobType) ∧
    (∀ q1 q2 : Query, toLowerStr q1.remoteFilter = toLowerStr q2.remoteFilter →
        q1.getRemoteFilter = q2.getRemoteFilter) ∧
    (∀ q1 q2 : Query, toLowerStr q1.salary = toLowerStr q2.salary →
        q1.getSalary = q2.getSalary) := by
  refine ⟨?_, ?_, ?_, ?_, ?_, ?_, ?_, ?_, ?_, ?_⟩
  · intro q start h hmem
    rw [List.mem_map] at hmem
    obtain ⟨kv, hkv, hfst⟩ := hmem
    rcases params_key_cases hkv with h1 | h1 | ⟨h1, hc⟩ | ⟨h1, hc⟩ | ⟨h1, hc⟩ | ⟨h1, hc⟩ |
      ⟨h1, hc⟩ | h1 | h1 <;> rw [hfst] at h1
    · exact absurd h1 (by decide)
    · exact absurd h1 (by decide)
    · exact hc h
    · exact absurd h1 (by decide)
    · exact absurd h1 (by decide)
    · exact absurd h1 (by decide)
    · exact absurd h1 (by decide)
    · exact absurd h1 (by decide)
    · exact absurd h1 (by decide)
  · intro q start h hmem
    rw [List.mem_map] at hmem
    obtain ⟨kv, hkv, hfst⟩ := hmem
    rcases params_key_cases hkv with h1 | h1 | ⟨h1, hc⟩ | ⟨h1, hc⟩ | ⟨h1, hc⟩ | ⟨h1, hc⟩ |
      ⟨h1, hc⟩ | h1 | h1 <;> rw [hfst] at h1
    · exact absurd h1 (by decide)
    · exact absurd h1 (by decide)
    · exact absurd h1 (by decide)
    · exact hc h
    · exact absurd h1 (by decide)
    · exact absurd h1 (by decide)
    · exact absurd h1 (by decide)
    · exact absurd h1 (by decide)
    · exact absurd h1 (by decide)
  · intro q start h hmem
    rw [List.mem_map] at hmem
    obtain ⟨kv, hkv, hfst⟩ := hmem
    rcases params_key_cases hkv with h1 | h1 | ⟨h1, hc⟩ | ⟨h1, hc⟩ | ⟨h1, hc⟩ | ⟨h1, hc⟩ |
      ⟨h1, hc⟩ | h1 | h1 <;> rw [hfst] at h1
    · exact absurd h1 (by decide)
    · exact absurd h1 (by decide)
    · exact absurd h1 (by decide)
    · exact absurd h1 (by decide)
    · exact hc h
    · exact absurd h1 (by decide)
    · exact absurd h1 (by decide)
    · exact absurd h1 (by decide)
    · exact absurd h1 (by decide)
  · intro q start h hmem
    rw [List.mem_map] at hmem
    obtain ⟨kv, hkv, hfst⟩ := hmem
    rcases params_key_cases hkv with h1 | h1 | ⟨h1, hc⟩ | ⟨h1, hc⟩ | ⟨h1, hc⟩ | ⟨h1, hc⟩ |
      ⟨h1, hc⟩ | h1 | h1 <;> rw [hfst] at h1
    · exact absurd h1 (by decide)
    · exact absurd h1 (by decide)
    · exact absurd h1 (by decide)
    · exact absurd h1 (by decide)
    · exact absurd h1 (by decide)
    · exact hc h
    · exact absurd h1 (by decide)
    · exact absurd h1 (by decide)
    · exact absurd h1 (by decide)
  · intro q start h hmem
    rw [List.mem_map] at hmem
    obtain ⟨kv, hkv, hfst⟩ := hmem
    rcases params_key_cases hkv with h1 | h1 | ⟨h1, hc⟩ | ⟨h1, hc⟩ | ⟨h1, hc⟩ | ⟨h1, hc⟩ |
      ⟨h1, hc⟩ | h1 | h1 <;> rw [hfst] at h1
    · exact absurd h1 (by decide)
    · exact absurd h1 (by decide)
    · exact absurd h1 (by decide)
    · exact absurd h1 (by decide)
    · exact absurd h1 (by decide)
    · exact absurd h1 (by decide)
    · exact hc h
    · exact absurd h1 (by decide)
    · exact absurd h1 (by decide)
  · intro q1 q2 h
    unfold Query.getDateSincePosted
    dsimp only
    rw [h]
  · intro q1 q2 h
    unfold Query.getExperienceLevel
    dsimp only
    rw [h]
  · intro q1 q2 h
    unfold Query.getJobType
    dsimp only
    rw [h]
  · intro q1 q2 h
    unfold Query.getRemoteFilter
    dsimp only
    rw [h]
  · intro q1 q2 h
    have i1 := eq_key_iff h "40000" (by decide) (by decide)
    have i2 := eq_key_iff h "60000" (by decide) (by decide)
    have i3 := eq_key_iff h "80000" (by decide) (by decide)
    have i4 := eq_key_iff h "100000" (by decide) (by decide)
    have i5 := eq_key_iff h "120000" (by decide) (by decide)
    simp only [Query.getSalary, i1, i2, i3, i4, i5]

/-- Witness for c9_filter_vocabulary: the unrecognized value "manager" for
experienceLevel leaves the f_E parameter out of the built parameter list. -/
theorem c9_witness :
    (Query.make { QueryObj.base with experienceLevel := "manager" }).getExperienceLevel = "" ∧
    "f_E" ∉ ((Query.make { QueryObj.base with experienceLevel := "manager" }).params 0).map
      Prod.fst :=
  ⟨by decide,
   c9_filter_vocabulary.2.2.1 (Query.make { QueryObj.base with experienceLevel := "manager" })
     0 (by decide)⟩

/-- Claim C10, as stated, is false on the code: a crawl that accumulates zero
records can still change the cache state, because the initial cache probe of
Query.prototype.getJobs deletes an expired entry under the same key; starting
from a cache holding one entry aged past the TTL, the crawl returns no
records yet ends with a cache different from the initial one. -/
theorem c10_counterexample :
    Batch.Query.getJobs (Query.make xObj) (fun _ => BatchResult.ok ([] : List Nat)) 5
      staleEntryCache (batchTTL + 1) =
      some ⟨[], ⟨batchTTL, []⟩, 1, []⟩ ∧
    (⟨batchTTL, []⟩ : JobCache (List Nat)) ≠ staleEntryCache := by
  refine ⟨by decide, by decide⟩

/-- Claim C10 amended: when the initial cache probe misses and the crawl
accumulates zero records, no store happens - the final cache equals the cache
left by the probe (which may have evicted an expired entry) and holds no
entry under the canonical first-page URL key, so the next identical query
fetches fresh; a non-empty accumulated result is stored under exactly that
key. -/
theorem c10_no_store_on_empty :
    ∀ {α : Type} (q : Query) (fetch : Nat → BatchResult α) (fuel : Nat)
      (cache : JobCache (List α)) (now : Nat) (out : Batch.GetJobsOut α),
      Batch.Query.getJobs q fetch fuel cache now = some out →
      (cache.getBatch (q.url 0) now).1 = none →
      ((out.result = [] → out.cache = (cache.getBatch (q.url 0) now).2 ∧
          lookupEntry out.cache.entries (q.url 0) = none) ∧
       (out.result ≠ [] →
          out.cache = ((cache.getBatch (q.url 0) now).2).set (q.url 0) out.result now)) := by
  intro α q fetch fuel cache now out hsome hmiss
  unfold Batch.Query.getJobs at hsome
  dsimp only at hsome
  rcases hgb : cache.getBatch (q.url 0) now with ⟨o, cache2⟩
  rw [hgb] at hsome hmiss
  simp only at hmiss
  subst hmiss
  simp only at hsome
  cases hloop : Batch.getJobsLoop fetch q.limit fuel 0 [] 0 0 [] with
  | none =>
    rw [hloop] at hsome
    cases hsome
  | some lo =>
    rw [hloop] at hsome
    simp only at hsome
    have h2 := Option.some.inj hsome
    subst h2
    constructor
    · intro he
      dsimp only at he
      constructor
      · dsimp only
        rw [he]
        simp
      · dsimp only
        rw [he, if_neg (by simp)]
        exact getBatch_none_absent cache (q.url 0) now cache2 hgb
    · intro hne
      dsimp only at hne ⊢
      rw [if_pos (List.length_pos.mpr hne)]

/-- Witness for c10_no_store_on_empty: on an empty cache the probe misses,
a single empty page ends the crawl with no records, and the final cache
still holds nothing under the canonical key. -/
theorem c10_witness :
    Batch.Query.getJobs (Query.make xObj) (fun _ => BatchResult.ok ([] : List Nat)) 5
      (JobCache.empty batchTTL) 0 = some ⟨[], JobCache.empty batchTTL, 1, []⟩ ∧
    ((JobCache.empty (α := List Nat) batchTTL).getBatch ((Query.make xObj).url 0) 0).1 =
      none ∧
    lookupEntry (JobCache.empty (α := List Nat) batchTTL).entries ((Query.make xObj).url 0) =
      none := by
  refine ⟨by decide, by decide, ?_⟩
  have h := c10_no_store_on_empty (Query.make xObj) (fun _ => BatchResult.ok ([] : List Nat))
    5 (JobCache.empty batchTTL) 0 ⟨[], JobCache.empty batchTTL, 1, []⟩ (by decide) (by decide)
  exact (h.1 rfl).2
